import Mathlib

/-
Verification of the gait-analyzer metrics engine (dash_app/utils.py).

The engine is embedded shallowly:
* angle signals are lists of exact rationals (IEEE doubles are modelled by ℚ;
  the claims under study never depend on binary rounding of the signal values);
* the scalar results that Python propagates as float NaN (mean/std of an empty
  sample, 0/0) are modelled by the type `GFloat` = NaN or a rational;
* fallible calls (`align_values`, which the design allows to fail with
  MisalignedSequenceError) are modelled in `Except`.

`calc_metrics`, `avg_gait_phase`, `_ratio_str`, `_row`, `_mean_std_str` and
`_time` are translated from src/dash_app/utils.py.  The primitives
`filter_outliers`, `align_values` and `GaitCycleDetector.normed_gait_phases`
live in repository files (data/timeseries_utils.py, data/gait_cycle_detector.py)
that are not among the sources; they are modelled from the specification, as
marked on each definition.
-/

namespace GaitAnalyzer

attribute [local semireducible] Rat.add Rat.sub Rat.mul Rat.inv Rat.ofScientific

/-- Round a rational to the nearest integer, ties to even — the rounding used
by Python fixed-point float formatting. -/
def roundHalfEven (q : ℚ) : ℤ :=
  let f := ⌊q⌋
  let r := q - f
  if r < 1/2 then f
  else if 1/2 < r then f + 1
  else if f % 2 = 0 then f else f + 1

/-- Left-pad a string with zeros to the given length. -/
def padZeros (s : String) (n : ℕ) : String :=
  String.mk (List.replicate (n - s.length) '0' ++ s.data)

/-- Python `f"{q:.prec f}"` on a finite value: fixed-point with `prec` decimal
digits; a negative value that rounds to zero keeps its minus sign, as in
Python (`f"{-0.001:.2f}" = "-0.00"`). -/
def fmtFixed (prec : ℕ) (q : ℚ) : String :=
  let n := roundHalfEven (q * (10 : ℚ) ^ prec)
  let sign := if q < 0 then "-" else ""
  let mag := n.natAbs
  sign ++ toString (mag / 10 ^ prec) ++ "." ++ padZeros (toString (mag % 10 ^ prec)) prec

/-- A Python/NumPy double as the pipeline observes it: NaN or a finite value
(modelled exactly as a rational).  Infinities are not modelled: no theorem in
this development evaluates a division by zero with a non-zero numerator. -/
inductive GFloat where
  | nan : GFloat
  | val : ℚ → GFloat
deriving DecidableEq

namespace GFloat

def add : GFloat → GFloat → GFloat
  | val a, val b => val (a + b)
  | _, _ => nan

def sub : GFloat → GFloat → GFloat
  | val a, val b => val (a - b)
  | _, _ => nan

def mul : GFloat → GFloat → GFloat
  | val a, val b => val (a * b)
  | _, _ => nan

/-- Division; division by zero yields NaN (see the caveat on `GFloat`). -/
def div : GFloat → GFloat → GFloat
  | val a, val b => if b = 0 then nan else val (a / b)
  | _, _ => nan

/-- IEEE `>`: any comparison involving NaN is false. -/
def gtB : GFloat → GFloat → Bool
  | val a, val b => decide (b < a)
  | _, _ => false

instance : Add GFloat := ⟨add⟩
instance : Sub GFloat := ⟨sub⟩
instance : Mul GFloat := ⟨mul⟩
instance : Div GFloat := ⟨div⟩

end GFloat

/-- Python float formatting including the NaN case: `f"{float('nan'):.2f}"`
is `"nan"`. -/
def fmtG (prec : ℕ) : GFloat → String
  | GFloat.nan => "nan"
  | GFloat.val q => fmtFixed prec q

/-- Mean of a list of rationals (`np.mean` on a non-empty sample). -/
def meanQ (l : List ℚ) : ℚ := l.sum / l.length

/-- Population variance (`np.var`, ddof = 0, the NumPy default). -/
def varQ (l : List ℚ) : ℚ := meanQ (l.map (fun x => (x - meanQ l) ^ 2))

/-- Square root on ℚ, exact whenever the radicand is the square of a rational
(floor-valued otherwise).  Every sample whose standard deviation a theorem of
this development evaluates has a rational standard deviation, so the
approximation is never observed. -/
def ratSqrt (q : ℚ) : ℚ := (Int.sqrt q.num : ℚ) / (Nat.sqrt q.den : ℚ)

/-- `np.mean` of a possibly empty sample: NaN when empty. -/
def meanG (l : List ℚ) : GFloat :=
  if l.isEmpty then GFloat.nan else GFloat.val (meanQ l)

/-- `np.std` (population) of a possibly empty sample: NaN when empty. -/
def stdG (l : List ℚ) : GFloat :=
  if l.isEmpty then GFloat.nan else GFloat.val (ratSqrt (varQ l))

/-- Modelled from the spec: `filter_outliers` is defined in
data/timeseries_utils.py, which is not among the sources.  Spec §4.4: remove
the values further than a fixed number of standard deviations from the sample
mean; deterministic and order-preserving; samples of size ≤ 2 are returned
unchanged (insufficient data to judge an outlier), so the empty sample maps to
the empty sample.  The multiple of the standard deviation is left open by the
spec (§9); this model fixes it at 2, stated equivalently without square roots:
keep `x` iff `(x - mean)² ≤ 4·variance`. -/
def filter_outliers (v : List ℚ) : List ℚ :=
  if v.length ≤ 2 then v
  else
    let m := meanQ v
    let s2 := varQ v
    v.filter (fun x => decide ((x - m) ^ 2 ≤ 4 * s2))

/-- `_mean_std_str(values, unit)` of calc_metrics (utils.py:58-59):
`f"{values.mean():.1f} ± {values.std():.1f} {unit}"`. -/
def _mean_std_str (values : List ℚ) (unit : String) : String :=
  fmtG 1 (meanG values) ++ " ± " ++ fmtG 1 (stdG values) ++ " " ++ unit

/-- `_ratio_str(r, l)` of calc_metrics (utils.py:61-64): replace each sample by
its mean, prefix `+` when `r/l > 1`, and append `f"{100*r/l - 100:.2f}%"`. -/
def _ratio_str (r l : List ℚ) : String :=
  let rm := meanG r
  let lm := meanG l
  let sign := if (rm / lm).gtB (GFloat.val 1) then "+" else ""
  sign ++ fmtG 2 (GFloat.val 100 * rm / lm - GFloat.val 100) ++ "%"

/-- `_row(name, unit, right, left)` of calc_metrics (utils.py:66-70): filter
outliers on each side, then build the four display cells. -/
def _row (name unit : String) (right left : List ℚ) :
    String × String × String × String :=
  let right := filter_outliers right
  let left := filter_outliers left
  (name, _mean_std_str right unit, _mean_std_str left unit, _ratio_str right left)

/-- `_time(values, fps=50)` of calc_metrics (utils.py:72-73): frame counts to
milliseconds, `values / fps * 1000`. -/
def _time (values : List ℚ) (fps : ℚ := 50) : List ℚ :=
  values.map (fun v => v / fps * 1000)

/-- Linear interpolation of a segment at fractional index `x` (clamped to the
last sample at the right edge), as `np.interp` over sample indices. -/
def interpAt (seg : List ℚ) (x : ℚ) : ℚ :=
  let i := (⌊x⌋).toNat
  if i + 1 < seg.length then
    seg.getD i 0 * (1 - (x - i)) + seg.getD (i + 1) 0 * (x - i)
  else seg.getD (seg.length - 1) 0

/-- Resample a segment to 101 points spanning 0–100% of the cycle: point `j`
interpolates the segment at index `(len-1)·j/100`. -/
def resample101 (seg : List ℚ) : List ℚ :=
  (List.range 101).map (fun j : ℕ =>
    interpAt seg (((seg.length - 1 : ℕ) : ℚ) * (j : ℚ) / 100))

/-- Modelled from the spec: `GaitCycleDetector.normed_gait_phases` is defined
in data/gait_cycle_detector.py, which is not among the sources.  Spec §4.2:
for each consecutive pair of events extract `signal[events[i] : events[i+1]]`;
segments with fewer than 2 samples (including those from out-of-order events)
are silently skipped; each kept segment is resampled to exactly 101 points;
fewer than 2 events yields the empty list. -/
def normed_gait_phases (signal : List ℚ) (events : List ℕ) : List (List ℚ) :=
  (events.zip events.tail).filterMap (fun p =>
    let seg := (signal.drop p.1).take (p.2 - p.1)
    if seg.length < 2 then none else some (resample101 seg))

/-- Index and value of the element of the list nearest to `x` (earliest on
ties), or `none` for the empty list. -/
def pickNearest (x : ℕ) : List ℕ → Option (ℕ × ℕ)
  | [] => none
  | y :: ys =>
    match pickNearest x ys with
    | none => some (0, y)
    | some (i, z) =>
      if ((y : ℤ) - x).natAbs ≤ ((z : ℤ) - x).natAbs then some (0, y)
      else some (i + 1, z)

/-- Greedy in-order matching: for each element of the first list take the
nearest remaining element of the second; keep the signed difference when it is
within tolerance, and consume the matched element and its predecessors. -/
def alignGo : List ℕ → List ℕ → ℕ → List ℤ
  | [], _, _ => []
  | x :: xs, ys, tol =>
    match pickNearest x ys with
    | none => alignGo xs ys tol
    | some (i, y) =>
      if ((y : ℤ) - x).natAbs ≤ tol then
        ((y : ℤ) - (x : ℤ)) :: alignGo xs (ys.drop (i + 1)) tol
      else alignGo xs ys tol

/-- Modelled from the spec: `align_values` is defined in
data/timeseries_utils.py, which is not among the sources.  Spec §4.3: pair each
usable timestamp of `a` with the nearest in-order timestamp of `b`, drop pairs
further apart than `tolerance` (inclusive), consume each element of `b` at most
once, and fail with MisalignedSequenceError only when neither sequence has an
element.  Only `mode = "diff"` (signed difference `b - a`) is described by the
spec and used by calc_metrics, so the `mode` argument is carried but inert.
` start_left = true` anchors matching on the first element of `a` (the only
value calc_metrics passes); otherwise the elements of `a` preceding the first
element of `b` are skipped. -/
def align_values (a b : List ℕ) (mode : String) (tolerance : ℕ)
    ( start_left : Bool) : Except String (List ℤ) :=
  if a = [] ∧ b = [] then Except.error "MisalignedSequenceError"
  else
    let a' := if start_left then a
              else a.dropWhile (fun x => decide (x < b.headD 0))
    Except.ok (alignGo a' b tolerance)

/-- `np.max` over a cycle (cycles are never empty: they hold 101 samples). -/
def maxQ : List ℚ → ℚ
  | [] => 0
  | x :: xs => xs.foldl max x

/-- `np.min` over a cycle. -/
def minQ : List ℚ → ℚ
  | [] => 0
  | x :: xs => xs.foldl min x

/-- `np.ptp` along the last axis: max minus min of one cycle. -/
def ptpQ (l : List ℚ) : ℚ := maxQ l - minQ l

/-- `np.diff`: successive differences of an event sequence. -/
def diffN (l : List ℕ) : List ℤ :=
  (l.zip l.tail).map (fun p => (p.2 : ℤ) - (p.1 : ℤ))

/-- `np.mean(table, axis=0)` on a rectangular table: element-wise mean across
the rows. -/
def colMean (t : List (List ℚ)) : List ℚ :=
  (List.range (t.headD []).length).map (fun j => meanQ (t.map (fun r => r.getD j 0)))

/-- The report `calc_metrics` returns: a DataFrame, i.e. the column names and
the list of rows. -/
structure Report where
  columns : List String
  rows : List (String × String × String × String)
deriving DecidableEq, Inhabited

/-- utils.py:75, the DataFrame column names. -/
def metricColumns : List String :=
  ["Metric", "Right side", "Left side", "Right / Left ratio"]

/-- `calc_metrics(angles, events)` (utils.py:56-100).  `angles` is the T×2
signal (Right, Left columns); `events` is (right-strike, left-strike,
right-off, left-off). -/
def calc_metrics (angles : List (ℚ × ℚ))
    (events : List ℕ × List ℕ × List ℕ × List ℕ) : Except String Report := do
  let (rhs, lhs, rto, lto) := events
  let rcycles := normed_gait_phases (angles.map Prod.fst) rhs
  let lcycles := normed_gait_phases (angles.map Prod.snd) lhs
  let rstance ← align_values rhs rto "diff" 30 true
  let lstance ← align_values lhs lto "diff" 30 true
  let rswing ← align_values rto rhs "diff" 30 true
  let lswing ← align_values lto lhs "diff" 30 true
  let rdouble ← align_values rhs lto "diff" 10 true
  let ldouble ← align_values lhs rto "diff" 10 true
  Except.ok
    { columns := metricColumns
      rows :=
        [_row "Range of motion" "°" (rcycles.map ptpQ) (lcycles.map ptpQ),
         _row "Max peak" "°" (rcycles.map maxQ) (lcycles.map maxQ),
         _row "Max peak (loading response)" "°"
           (rcycles.map (fun c => maxQ (c.take 30)))
           (lcycles.map (fun c => maxQ (c.take 30))),
         _row "Total step time" "ms"
           (_time ((diffN rhs).map (fun z : ℤ => (z : ℚ))))
           (_time ((diffN lhs).map (fun z : ℤ => (z : ℚ)))),
         _row "Stance time" "ms"
           (_time (rstance.map (fun z : ℤ => (z : ℚ))))
           (_time (lstance.map (fun z : ℤ => (z : ℚ)))),
         _row "Swing time" "ms"
           (_time (rswing.map (fun z : ℤ => (z : ℚ))))
           (_time (lswing.map (fun z : ℤ => (z : ℚ)))),
         _row "Double support time" "ms"
           (_time (rdouble.map (fun z : ℤ => (z : ℚ))))
           (_time (ldouble.map (fun z : ℤ => (z : ℚ))))] }

/-- `avg_gait_phase(angles, events)` (utils.py:116-123): per side, the
normalized gait phases of that side's own strike events, averaged across
cycles (`np.mean(..., axis=0)`). -/
def avg_gait_phase (angles : List (ℚ × ℚ))
    (events : List ℕ × List ℕ × List ℕ × List ℕ) : List ℚ × List ℚ :=
  let (rhs, lhs, _, _) := events
  let r_normed_phases := normed_gait_phases (angles.map Prod.fst) rhs
  let l_normed_phases := normed_gait_phases (angles.map Prod.snd) lhs
  (colMean r_normed_phases, colMean l_normed_phases)

/-! ### Helper lemmas -/

theorem GFloat.val_mul (a b : ℚ) : GFloat.val a * GFloat.val b = GFloat.val (a * b) := rfl

theorem GFloat.val_sub (a b : ℚ) : GFloat.val a - GFloat.val b = GFloat.val (a - b) := rfl

theorem GFloat.val_div (a b : ℚ) (h : b ≠ 0) :
    GFloat.val a / GFloat.val b = GFloat.val (a / b) := by
  show GFloat.div _ _ = _
  simp [GFloat.div, h]

theorem GFloat.gtB_val (a b : ℚ) : (GFloat.val a).gtB (GFloat.val b) = decide (b < a) := rfl

theorem meanG_of_ne_nil (l : List ℚ) (h : l ≠ []) : meanG l = GFloat.val (meanQ l) := by
  simp [meanG, h]

theorem resample101_length (seg : List ℚ) : (resample101 seg).length = 101 := by
  rw [resample101, List.length_map, List.length_range]

theorem normed_mem_length (s : List ℚ) (es : List ℕ) (c : List ℚ)
    (h : c ∈ normed_gait_phases s es) : c.length = 101 := by
  simp only [normed_gait_phases, List.mem_filterMap] at h
  obtain ⟨p, -, he⟩ := h
  simp at he
  rw [← he.2]
  exact resample101_length _

theorem alignGo_nil_right (a : List ℕ) (tol : ℕ) : alignGo a [] tol = [] := by
  induction a with
  | nil => rfl
  | cons x xs ih => simp [alignGo, pickNearest, ih]

theorem align_values_ok (a b : List ℕ) (m : String) (t : ℕ) (h : ¬(a = [] ∧ b = [])) :
    align_values a b m t true = Except.ok (alignGo a b t) := by
  rw [align_values, if_neg h]
  rfl

theorem getD_map_range (n j : ℕ) (f : ℕ → ℚ) (h : j < n) :
    (((List.range n).map f).getD j 0) = f j := by
  rw [List.getD_eq_getElem?_getD, List.getElem?_map, List.getElem?_range h]
  rfl

/-- Under the conditions that let every alignment find at least one event in
one of its two sequences, `calc_metrics` reduces to the explicit report. -/
theorem calc_metrics_ok (a : List (ℚ × ℚ)) (rhs lhs rto lto : List ℕ)
    (h1 : ¬(rhs = [] ∧ rto = [])) (h2 : ¬(lhs = [] ∧ lto = []))
    (h3 : ¬(rhs = [] ∧ lto = [])) (h4 : ¬(lhs = [] ∧ rto = [])) :
    calc_metrics a (rhs, lhs, rto, lto) = Except.ok
      { columns := metricColumns
        rows :=
          [_row "Range of motion" "°"
             ((normed_gait_phases (a.map Prod.fst) rhs).map ptpQ)
             ((normed_gait_phases (a.map Prod.snd) lhs).map ptpQ),
           _row "Max peak" "°"
             ((normed_gait_phases (a.map Prod.fst) rhs).map maxQ)
             ((normed_gait_phases (a.map Prod.snd) lhs).map maxQ),
           _row "Max peak (loading response)" "°"
             ((normed_gait_phases (a.map Prod.fst) rhs).map (fun c => maxQ (c.take 30)))
             ((normed_gait_phases (a.map Prod.snd) lhs).map (fun c => maxQ (c.take 30))),
           _row "Total step time" "ms"
             (_time ((diffN rhs).map (fun z : ℤ => (z : ℚ))))
             (_time ((diffN lhs).map (fun z : ℤ => (z : ℚ)))),
           _row "Stance time" "ms"
             (_time ((alignGo rhs rto 30).map (fun z : ℤ => (z : ℚ))))
             (_time ((alignGo lhs lto 30).map (fun z : ℤ => (z : ℚ)))),
           _row "Swing time" "ms"
             (_time ((alignGo rto rhs 30).map (fun z : ℤ => (z : ℚ))))
             (_time ((alignGo lto lhs 30).map (fun z : ℤ => (z : ℚ)))),
           _row "Double support time" "ms"
             (_time ((alignGo rhs lto 10).map (fun z : ℤ => (z : ℚ))))
             (_time ((alignGo lhs rto 10).map (fun z : ℤ => (z : ℚ))))] } := by
  have h1' : ¬(rto = [] ∧ rhs = []) := fun h => h1 ⟨h.2, h.1⟩
  have h2' : ¬(lto = [] ∧ lhs = []) := fun h => h2 ⟨h.2, h.1⟩
  rw [calc_metrics]
  rw [align_values_ok rhs rto _ _ h1, align_values_ok lhs lto _ _ h2,
      align_values_ok rto rhs _ _ h1', align_values_ok lto lhs _ _ h2',
      align_values_ok rhs lto _ _ h3, align_values_ok lhs rto _ _ h4]
  rfl

/-! ### Claims -/

/-- C1: For every pair of non-empty samples (with a non-zero left mean, so the
ratio is defined), the ratio string is the sign prefix — `+` exactly when
mean(right)/mean(left) > 1 and empty otherwise — followed by
`100*mean(right)/mean(left) - 100` formatted to two decimals and a `%` suffix;
in particular `_ratio_str` yields "+20.00%" on right mean 12 vs left mean 10,
and "-20.00%" on right mean 8 vs left mean 10. -/
theorem ratio_str_correct (r l : List ℚ) (hr : r ≠ []) (hl : l ≠ [])
    (h0 : meanQ l ≠ 0) :
    _ratio_str r l =
      (if 1 < meanQ r / meanQ l then "+" else "")
        ++ fmtFixed 2 (100 * meanQ r / meanQ l - 100) ++ "%" ∧
    _ratio_str [12] [10] = "+20.00%" ∧
    _ratio_str [8] [10] = "-20.00%" := by
  refine ⟨?_, by decide, by decide⟩
  simp only [_ratio_str, meanG_of_ne_nil r hr, meanG_of_ne_nil l hl,
    GFloat.val_mul, GFloat.val_div _ _ h0, GFloat.gtB_val, GFloat.val_sub, fmtG,
    decide_eq_true_eq]

/-- C1 witness: the theorem instantiated at the samples with means 12 and 10. -/
theorem ratio_str_correct_witness :
    (([12] : List ℚ) ≠ [] ∧ ([10] : List ℚ) ≠ [] ∧ meanQ [10] ≠ 0) ∧
    (_ratio_str [12] [10] =
      (if 1 < meanQ [12] / meanQ [10] then "+" else "")
        ++ fmtFixed 2 (100 * meanQ [12] / meanQ [10] - 100) ++ "%" ∧
     _ratio_str [12] [10] = "+20.00%" ∧
     _ratio_str [8] [10] = "-20.00%") :=
  ⟨⟨by decide, by decide, by decide⟩,
   ratio_str_correct [12] [10] (by decide) (by decide) (by decide)⟩

/-- C8: `calc_metrics` is a pure, deterministic function of its inputs: equal
angle signals and equal event tuples yield equal reports.  (The embedding is
state-free because the source routine reads and writes no state shared between
invocations: it builds a fresh `GaitCycleDetector` each call and mutates none
of its arguments.) -/
theorem calc_metrics_pure (a a' : List (ℚ × ℚ))
    (e e' : List ℕ × List ℕ × List ℕ × List ℕ) (ha : a = a') (he : e = e') :
    calc_metrics a e = calc_metrics a' e' := by
  rw [ha, he]

/-- C8 witness: the theorem instantiated at a concrete recording. -/
theorem calc_metrics_pure_witness :
    calc_metrics [(1, 2), (3, 4)] ([0, 1], [0, 1], [1], [1]) =
      calc_metrics [(1, 2), (3, 4)] ([0, 1], [0, 1], [1], [1]) :=
  calc_metrics_pure [(1, 2), (3, 4)] [(1, 2), (3, 4)]
    ([0, 1], [0, 1], [1], [1]) ([0, 1], [0, 1], [1], [1]) rfl rfl

/-- C9 counterexample: `filter_outliers` is not idempotent.  On
`[0, 0, 0, 0, 0, 1, 2]` the first pass removes `2`, which shrinks the mean and
the standard deviation enough that a second pass also removes `1`. -/
theorem filter_outliers_not_idem_cex :
    filter_outliers (filter_outliers [0, 0, 0, 0, 0, 1, 2]) ≠
      filter_outliers [0, 0, 0, 0, 0, 1, 2] := by decide

/-- C9 amended: applying `filter_outliers` twice agrees with applying it once
whenever the first application removes no value — in particular on every
sample of size ≤ 2, which the filter returns unchanged; it is not idempotent
in general. -/
theorem filter_outliers_idem_of_fixpoint (v : List ℚ)
    (h : v.length ≤ 2 ∨ filter_outliers v = v) :
    filter_outliers (filter_outliers v) = filter_outliers v := by
  rcases h with h | h
  · have hv : filter_outliers v = v := by rw [filter_outliers, if_pos h]
    rw [hv, hv]
  · rw [h, h]

/-- C9 witness: the amended theorem instantiated at the two-element sample
`[5, 7]`. -/
theorem filter_outliers_idem_witness :
    (([5, 7] : List ℚ).length ≤ 2 ∨ filter_outliers [5, 7] = [5, 7]) ∧
    filter_outliers (filter_outliers [5, 7]) = filter_outliers [5, 7] :=
  ⟨Or.inl (by decide),
   filter_outliers_idem_of_fixpoint [5, 7] (Or.inl (by decide))⟩

/-- C10: `avg_gait_phase` does not depend on the toe-off components of the
events tuple: two event tuples agreeing in their strike sequences give
identical output whatever the third and fourth sequences are. -/
theorem avg_gait_phase_ignores_off_events (a : List (ℚ × ℚ))
    (rhs lhs rto lto rto' lto' : List ℕ) :
    avg_gait_phase a (rhs, lhs, rto, lto) = avg_gait_phase a (rhs, lhs, rto', lto') := rfl

/-- C2 counterexample: the claim fixes the row names as "Max peak (full
cycle)" and "Double-support time", but the report built at a concrete input
names those rows "Max peak" and "Double support time". -/
theorem calc_metrics_rownames_cex :
    (calc_metrics [] ([0], [0], [0], [0])).toOption.map
        (fun rep => rep.rows.map (fun r => r.1)) ≠
      some ["Range of motion", "Max peak (full cycle)", "Max peak (loading response)",
        "Total step time", "Stance time", "Swing time", "Double-support time"] := by
  decide

/-- C2 amended: whenever `calc_metrics` succeeds, the report has exactly the 4
display columns Metric / Right side / Left side / Right-Left ratio and exactly
seven rows in the fixed order Range of motion, Max peak, Max peak (loading
response), Total step time, Stance time, Swing time, Double support time. -/
theorem calc_metrics_shape (a : List (ℚ × ℚ)) (rhs lhs rto lto : List ℕ)
    (h1 : ¬(rhs = [] ∧ rto = [])) (h2 : ¬(lhs = [] ∧ lto = []))
    (h3 : ¬(rhs = [] ∧ lto = [])) (h4 : ¬(lhs = [] ∧ rto = [])) :
    ∃ rep, calc_metrics a (rhs, lhs, rto, lto) = Except.ok rep ∧
      rep.columns = ["Metric", "Right side", "Left side", "Right / Left ratio"] ∧
      rep.columns.length = 4 ∧
      rep.rows.map (fun r => r.1) =
        ["Range of motion", "Max peak", "Max peak (loading response)",
         "Total step time", "Stance time", "Swing time", "Double support time"] ∧
      rep.rows.length = 7 :=
  ⟨_, calc_metrics_ok a rhs lhs rto lto h1 h2 h3 h4, rfl, rfl, rfl, rfl⟩

/-- C2 witness: the amended theorem instantiated at a concrete input. -/
theorem calc_metrics_shape_witness :
    (¬(([0] : List ℕ) = [] ∧ ([0] : List ℕ) = [])) ∧
    (∃ rep, calc_metrics [] ([0], [0], [0], [0]) = Except.ok rep ∧
      rep.columns = ["Metric", "Right side", "Left side", "Right / Left ratio"] ∧
      rep.columns.length = 4 ∧
      rep.rows.map (fun r => r.1) =
        ["Range of motion", "Max peak", "Max peak (loading response)",
         "Total step time", "Stance time", "Swing time", "Double support time"] ∧
      rep.rows.length = 7) :=
  ⟨by decide,
   calc_metrics_shape [] [0] [0] [0] [0] (by decide) (by decide) (by decide) (by decide)⟩

/-- C3: `calc_metrics` with an empty right-strike sequence (and the other
three event sequences non-empty, so that no alignment sees two empty
sequences) raises nothing: it returns a full 7-row report in which every
right-side cell is the no-data string "nan ± nan" with its unit. -/
theorem calc_metrics_empty_right_strike (a : List (ℚ × ℚ)) (lhs rto lto : List ℕ)
    (hl : lhs ≠ []) (hr : rto ≠ []) (ht : lto ≠ []) :
    ∃ rep, calc_metrics a ([], lhs, rto, lto) = Except.ok rep ∧
      rep.columns = metricColumns ∧ rep.rows.length = 7 ∧
      rep.rows.map (fun r => r.2.1) =
        ["nan ± nan °", "nan ± nan °", "nan ± nan °", "nan ± nan ms",
         "nan ± nan ms", "nan ± nan ms", "nan ± nan ms"] := by
  have h1 : ¬(([] : List ℕ) = [] ∧ rto = []) := fun h => hr h.2
  have h2 : ¬(lhs = [] ∧ lto = []) := fun h => hl h.1
  have h3 : ¬(([] : List ℕ) = [] ∧ lto = []) := fun h => ht h.2
  have h4 : ¬(lhs = [] ∧ rto = []) := fun h => hl h.1
  refine ⟨_, calc_metrics_ok a [] lhs rto lto h1 h2 h3 h4, rfl, rfl, ?_⟩
  rw [alignGo_nil_right rto 30]
  rfl

/-- C3 witness: the theorem instantiated with empty right strikes and
singleton remaining event sequences over the empty signal. -/
theorem calc_metrics_empty_right_strike_witness :
    (([1] : List ℕ) ≠ [] ∧ ([1] : List ℕ) ≠ [] ∧ ([1] : List ℕ) ≠ []) ∧
    (∃ rep, calc_metrics [] ([], [1], [1], [1]) = Except.ok rep ∧
      rep.columns = metricColumns ∧ rep.rows.length = 7 ∧
      rep.rows.map (fun r => r.2.1) =
        ["nan ± nan °", "nan ± nan °", "nan ± nan °", "nan ± nan ms",
         "nan ± nan ms", "nan ± nan ms", "nan ± nan ms"]) :=
  ⟨⟨by decide, by decide, by decide⟩,
   calc_metrics_empty_right_strike [] [1] [1] [1] (by decide) (by decide) (by decide)⟩

/-- C5: the Total step time row of the report is built, per side, from the
successive differences of that side's own strike sequence — no alignment —
and each frame-count difference is converted to milliseconds at 50 Hz, that
is, multiplied by 1000/50 = 20 ms per frame. -/
theorem step_time_row (a : List (ℚ × ℚ)) (rhs lhs rto lto : List ℕ)
    (h1 : ¬(rhs = [] ∧ rto = [])) (h2 : ¬(lhs = [] ∧ lto = []))
    (h3 : ¬(rhs = [] ∧ lto = [])) (h4 : ¬(lhs = [] ∧ rto = [])) :
    ∃ rep, calc_metrics a (rhs, lhs, rto, lto) = Except.ok rep ∧
      rep.rows.getD 3 default =
        _row "Total step time" "ms"
          (_time ((diffN rhs).map (fun z : ℤ => (z : ℚ))))
          (_time ((diffN lhs).map (fun z : ℤ => (z : ℚ)))) ∧
      _time ((diffN rhs).map (fun z : ℤ => (z : ℚ))) =
        (diffN rhs).map (fun d : ℤ => (d : ℚ) * 20) ∧
      _time ((diffN lhs).map (fun z : ℤ => (z : ℚ))) =
        (diffN lhs).map (fun d : ℤ => (d : ℚ) * 20) := by
  have key : ∀ v : List ℤ, _time (v.map (fun z : ℤ => (z : ℚ))) =
      v.map (fun d : ℤ => (d : ℚ) * 20) := by
    intro v
    rw [_time, List.map_map]
    have : ((fun v => v / 50 * 1000) ∘ fun z : ℤ => (z : ℚ)) =
        fun d : ℤ => (d : ℚ) * 20 := by
      funext z
      show (z : ℚ) / 50 * 1000 = (z : ℚ) * 20
      rw [div_mul_eq_mul_div, div_eq_iff (by norm_num : (50 : ℚ) ≠ 0)]
      ring
    rw [this]
  exact ⟨_, calc_metrics_ok a rhs lhs rto lto h1 h2 h3 h4, rfl, key _, key _⟩

/-- C5 witness: the theorem instantiated at strike sequences [0, 2, 5]. -/
theorem step_time_row_witness :
    (¬(([0, 2, 5] : List ℕ) = [] ∧ ([1] : List ℕ) = [])) ∧
    (∃ rep, calc_metrics [] ([0, 2, 5], [0, 2, 5], [1], [1]) = Except.ok rep ∧
      rep.rows.getD 3 default =
        _row "Total step time" "ms"
          (_time ((diffN [0, 2, 5]).map (fun z : ℤ => (z : ℚ))))
          (_time ((diffN [0, 2, 5]).map (fun z : ℤ => (z : ℚ)))) ∧
      _time ((diffN [0, 2, 5]).map (fun z : ℤ => (z : ℚ))) =
        (diffN [0, 2, 5]).map (fun d : ℤ => (d : ℚ) * 20) ∧
      _time ((diffN [0, 2, 5]).map (fun z : ℤ => (z : ℚ))) =
        (diffN [0, 2, 5]).map (fun d : ℤ => (d : ℚ) * 20)) :=
  ⟨by decide,
   step_time_row [] [0, 2, 5] [0, 2, 5] [1] [1]
     (by decide) (by decide) (by decide) (by decide)⟩

/-- C6: every row of the report is assembled from outlier-filtered per-side
samples: its Right and Left cells are the mean ± std strings of the filtered
samples and its ratio cell is the ratio string of the filtered samples. -/
theorem rows_use_filtered_samples (a : List (ℚ × ℚ)) (rhs lhs rto lto : List ℕ)
    (h1 : ¬(rhs = [] ∧ rto = [])) (h2 : ¬(lhs = [] ∧ lto = []))
    (h3 : ¬(rhs = [] ∧ lto = [])) (h4 : ¬(lhs = [] ∧ rto = [])) :
    ∃ rep, calc_metrics a (rhs, lhs, rto, lto) = Except.ok rep ∧
      ∀ row ∈ rep.rows, ∃ name unit right left,
        row = (name, _mean_std_str (filter_outliers right) unit,
               _mean_std_str (filter_outliers left) unit,
               _ratio_str (filter_outliers right) (filter_outliers left)) := by
  refine ⟨_, calc_metrics_ok a rhs lhs rto lto h1 h2 h3 h4, ?_⟩
  intro row hrow
  simp only [List.mem_cons, List.not_mem_nil, or_false] at hrow
  rcases hrow with rfl | rfl | rfl | rfl | rfl | rfl | rfl <;>
    exact ⟨_, _, _, _, rfl⟩

/-- C6 witness: the theorem instantiated at a concrete input. -/
theorem rows_use_filtered_samples_witness :
    (¬(([0] : List ℕ) = [] ∧ ([0] : List ℕ) = [])) ∧
    (∃ rep, calc_metrics [] ([0], [0], [0], [0]) = Except.ok rep ∧
      ∀ row ∈ rep.rows, ∃ name unit right left,
        row = (name, _mean_std_str (filter_outliers right) unit,
               _mean_std_str (filter_outliers left) unit,
               _ratio_str (filter_outliers right) (filter_outliers left))) :=
  ⟨by decide,
   rows_use_filtered_samples [] [0] [0] [0] [0]
     (by decide) (by decide) (by decide) (by decide)⟩

/-- C7: the Max peak row takes, per cycle, the maximum over the full
101-sample normalized cycle, while the Max peak (loading response) row takes
the maximum over the first 30 of the 101 samples — the leading portion of the
cycle; every normalized cycle indeed has 101 samples, of which the loading
response keeps exactly 30. -/
theorem max_peak_rows (a : List (ℚ × ℚ)) (rhs lhs rto lto : List ℕ)
    (h1 : ¬(rhs = [] ∧ rto = [])) (h2 : ¬(lhs = [] ∧ lto = []))
    (h3 : ¬(rhs = [] ∧ lto = [])) (h4 : ¬(lhs = [] ∧ rto = [])) :
    ∃ rep, calc_metrics a (rhs, lhs, rto, lto) = Except.ok rep ∧
      rep.rows.getD 1 default =
        _row "Max peak" "°"
          ((normed_gait_phases (a.map Prod.fst) rhs).map maxQ)
          ((normed_gait_phases (a.map Prod.snd) lhs).map maxQ) ∧
      rep.rows.getD 2 default =
        _row "Max peak (loading response)" "°"
          ((normed_gait_phases (a.map Prod.fst) rhs).map (fun c => maxQ (c.take 30)))
          ((normed_gait_phases (a.map Prod.snd) lhs).map (fun c => maxQ (c.take 30))) ∧
      (∀ c ∈ normed_gait_phases (a.map Prod.fst) rhs,
        c.length = 101 ∧ (c.take 30).length = 30) ∧
      (∀ c ∈ normed_gait_phases (a.map Prod.snd) lhs,
        c.length = 101 ∧ (c.take 30).length = 30) := by
  refine ⟨_, calc_metrics_ok a rhs lhs rto lto h1 h2 h3 h4, rfl, rfl, ?_, ?_⟩ <;>
  · intro c hc
    have hc101 := normed_mem_length _ _ _ hc
    refine ⟨hc101, ?_⟩
    rw [List.length_take, hc101]
    omega

/-- C7 witness: the theorem instantiated at a concrete input. -/
theorem max_peak_rows_witness :
    (¬(([0] : List ℕ) = [] ∧ ([0] : List ℕ) = [])) ∧
    (∃ rep, calc_metrics [] ([0], [0], [0], [0]) = Except.ok rep ∧
      rep.rows.getD 1 default =
        _row "Max peak" "°"
          ((normed_gait_phases (([] : List (ℚ × ℚ)).map Prod.fst) [0]).map maxQ)
          ((normed_gait_phases (([] : List (ℚ × ℚ)).map Prod.snd) [0]).map maxQ) ∧
      rep.rows.getD 2 default =
        _row "Max peak (loading response)" "°"
          ((normed_gait_phases (([] : List (ℚ × ℚ)).map Prod.fst) [0]).map
            (fun c => maxQ (c.take 30)))
          ((normed_gait_phases (([] : List (ℚ × ℚ)).map Prod.snd) [0]).map
            (fun c => maxQ (c.take 30))) ∧
      (∀ c ∈ normed_gait_phases (([] : List (ℚ × ℚ)).map Prod.fst) [0],
        c.length = 101 ∧ (c.take 30).length = 30) ∧
      (∀ c ∈ normed_gait_phases (([] : List (ℚ × ℚ)).map Prod.snd) [0],
        c.length = 101 ∧ (c.take 30).length = 30)) :=
  ⟨by decide,
   max_peak_rows [] [0] [0] [0] [0]
     (by decide) (by decide) (by decide) (by decide)⟩

/-- C4: when each side has at least one valid cycle, `avg_gait_phase` returns
per side a curve of length exactly 101 whose entry at every percentage point
is the mean, across that side's normalized cycles (built from that side's own
strike events), of the cycles' values at that point. -/
theorem avg_gait_phase_means (a : List (ℚ × ℚ)) (rhs lhs rto lto : List ℕ)
    (hr : normed_gait_phases (a.map Prod.fst) rhs ≠ [])
    (hl : normed_gait_phases (a.map Prod.snd) lhs ≠ []) :
    (avg_gait_phase a (rhs, lhs, rto, lto)).1.length = 101 ∧
    (avg_gait_phase a (rhs, lhs, rto, lto)).2.length = 101 ∧
    (∀ j, j < 101 → (avg_gait_phase a (rhs, lhs, rto, lto)).1.getD j 0 =
      meanQ ((normed_gait_phases (a.map Prod.fst) rhs).map (fun c => c.getD j 0))) ∧
    (∀ j, j < 101 → (avg_gait_phase a (rhs, lhs, rto, lto)).2.getD j 0 =
      meanQ ((normed_gait_phases (a.map Prod.snd) lhs).map (fun c => c.getD j 0))) := by
  have key : ∀ t : List (List ℚ), t ≠ [] → (∀ c ∈ t, c.length = 101) →
      (colMean t).length = 101 ∧
      ∀ j, j < 101 → (colMean t).getD j 0 = meanQ (t.map (fun c => c.getD j 0)) := by
    intro t ht hlen
    obtain ⟨c, t', rfl⟩ := List.exists_cons_of_ne_nil ht
    have hc : c.length = 101 := hlen c (List.mem_cons_self c t')
    constructor
    · rw [colMean, List.length_map, List.length_range, List.headD_cons, hc]
    · intro j hj
      rw [colMean, List.headD_cons, hc]
      exact getD_map_range _ _ _ hj
  have kr := key _ hr (fun c hc => normed_mem_length _ _ _ hc)
  have kl := key _ hl (fun c hc => normed_mem_length _ _ _ hc)
  exact ⟨kr.1, kl.1, kr.2, kl.2⟩

/-- C4 witness: a three-frame ramp signal with one valid cycle per side. -/
theorem avg_gait_phase_means_witness :
    (normed_gait_phases ([((0 : ℚ), (0 : ℚ)), (1, 2), (2, 4)].map Prod.fst) [0, 2] ≠ [] ∧
     normed_gait_phases ([((0 : ℚ), (0 : ℚ)), (1, 2), (2, 4)].map Prod.snd) [0, 2] ≠ []) ∧
    ((avg_gait_phase [(0, 0), (1, 2), (2, 4)] ([0, 2], [0, 2], [], [])).1.length = 101 ∧
     (avg_gait_phase [(0, 0), (1, 2), (2, 4)] ([0, 2], [0, 2], [], [])).2.length = 101 ∧
     (∀ j, j < 101 →
       (avg_gait_phase [(0, 0), (1, 2), (2, 4)] ([0, 2], [0, 2], [], [])).1.getD j 0 =
         meanQ ((normed_gait_phases ([((0 : ℚ), (0 : ℚ)), (1, 2), (2, 4)].map Prod.fst)
           [0, 2]).map (fun c => c.getD j 0))) ∧
     (∀ j, j < 101 →
       (avg_gait_phase [(0, 0), (1, 2), (2, 4)] ([0, 2], [0, 2], [], [])).2.getD j 0 =
         meanQ ((normed_gait_phases ([((0 : ℚ), (0 : ℚ)), (1, 2), (2, 4)].map Prod.snd)
           [0, 2]).map (fun c => c.getD j 0)))) :=
  ⟨⟨by decide, by decide⟩,
   avg_gait_phase_means [(0, 0), (1, 2), (2, 4)] [0, 2] [0, 2] [] []
     (by decide) (by decide)⟩

end GaitAnalyzer
